import Mathlib

/-!
# Verification of the osc-validation trace toolkit

Shallow embedding of the Python sources of the `osc-validation` repository
(OSI trace readers/writers, the OSI→OpenSCENARIO generator, trajectory
utilities and data providers), together with theorems settling the frozen
claims about the natural-language specification.

Modelling conventions:
* Python `float` values are modelled as exact rationals (`ℚ`); every claim
  here is about formulas, branch structure and comparisons, none of which
  depend on binary rounding of doubles.
* Protobuf field access in Python never yields `None`: reading an unset
  message field returns a default instance and reading an unset scalar
  returns `0`/`0.0`/`""`.  Optional submessages are therefore modelled as
  `Option` values together with an explicit accessor returning the default
  when the field is absent, exactly as the Python protobuf runtime does.
* Exceptions (`ValueError`, `AssertionError`, `AttributeError`,
  `FileNotFoundError`, `IndexError`, `RuntimeError`) are modelled by
  `Except String`.
-/

namespace OscValidation

/-- `osi3.osi_common_pb2.Timestamp`: `seconds` and `nanos` integer fields. -/
structure Timestamp where
  seconds : ℤ
  nanos : ℤ
  deriving Repr, DecidableEq

/-- Python `int(x)` on a float: truncation toward zero. -/
def pyInt (q : ℚ) : ℤ :=
  if 0 ≤ q then ⌊q⌋ else ⌈q⌉

/-- `utils.timestamp_osi_to_float`:
`(osi_timestamp.seconds * 1000000000 + osi_timestamp.nanos) / 1000000000`. -/
def timestamp_osi_to_float (ts : Timestamp) : ℚ :=
  ((ts.seconds : ℚ) * 1000000000 + (ts.nanos : ℚ)) / 1000000000

/-- `utils.timestamp_float_to_osi`: `seconds = math.floor(t)`,
`nanos = int((t - math.floor(t)) * 1000000000)`. -/
def timestamp_float_to_osi (t : ℚ) : Timestamp :=
  { seconds := ⌊t⌋
    nanos := pyInt ((t - (⌊t⌋ : ℚ)) * 1000000000) }

/-- Rounding as the specification's word "round" reads: nearest integer
(halves up, matching Mathlib's `round`; the counterexample below does not
depend on the tie-breaking direction, Python's half-to-even agrees on it). -/
def specRoundedNanos (t : ℚ) : ℤ :=
  round ((t - (⌊t⌋ : ℚ)) * 1000000000)

theorem pyInt_eq_floor_of_nonneg (q : ℚ) (h : 0 ≤ q) : pyInt q = ⌊q⌋ := by
  simp [pyInt, h]

/-- C2 counterexample: at `t = 1 + 3/2000000000` the code stores
`nanos = 1` (truncation of `1.5`) while the claim's `round` formula gives
`2`; so `timestamp_float_to_osi` does not round its nanosecond part. -/
theorem timestamp_float_to_osi_not_round :
    (timestamp_float_to_osi (1 + 3 / 2000000000)).nanos = 1 ∧
      specRoundedNanos (1 + 3 / 2000000000) = 2 := by
  have h1 : ⌊(1 + 3 / 2000000000 : ℚ)⌋ = 1 := by norm_num
  constructor
  · simp only [timestamp_float_to_osi, pyInt, h1]
    norm_num
  · simp only [specRoundedNanos, h1, round_eq]
    norm_num

/-- C2 (amended): for `t ≥ 0`, `timestamp_float_to_osi t` has
`seconds = ⌊t⌋` and `nanos = ⌊(t − ⌊t⌋) × 10⁹⌋` (truncation, not rounding),
and `timestamp_osi_to_float ts` equals `(seconds × 10⁹ + nanos) / 10⁹`
for every timestamp. -/
theorem timestamp_conversion_formulas (t : ℚ) (_ht : 0 ≤ t) :
    (timestamp_float_to_osi t).seconds = ⌊t⌋ ∧
      (timestamp_float_to_osi t).nanos = ⌊(t - (⌊t⌋ : ℚ)) * 1000000000⌋ ∧
      ∀ ts : Timestamp,
        timestamp_osi_to_float ts =
          ((ts.seconds : ℚ) * 1000000000 + (ts.nanos : ℚ)) / 1000000000 := by
  refine ⟨rfl, ?_, fun ts => rfl⟩
  have hfrac : (0 : ℚ) ≤ (t - (⌊t⌋ : ℚ)) * 1000000000 := by
    have hle := Int.floor_le t
    have h0 : (0 : ℚ) ≤ t - (⌊t⌋ : ℚ) := by linarith
    positivity
  exact pyInt_eq_floor_of_nonneg _ hfrac

/-- C2 witness: the amended conversion formulas evaluated at `t = 5/2`. -/
theorem timestamp_conversion_formulas_witness :
    (timestamp_float_to_osi (5 / 2)).seconds = ⌊(5 / 2 : ℚ)⌋ ∧
      (timestamp_float_to_osi (5 / 2)).nanos =
        ⌊((5 / 2 : ℚ) - (⌊(5 / 2 : ℚ)⌋ : ℚ)) * 1000000000⌋ ∧
      ∀ ts : Timestamp,
        timestamp_osi_to_float ts =
          ((ts.seconds : ℚ) * 1000000000 + (ts.nanos : ℚ)) / 1000000000 :=
  timestamp_conversion_formulas (5 / 2) (by norm_num)

/-! ## OSI data model (osi3 protobuf messages, as accessed by this repository) -/

/-- `osi3.Vector3d`. -/
structure Vector3 where
  x : ℚ
  y : ℚ
  z : ℚ
  deriving Repr, DecidableEq

/-- `osi3.Dimension3d` (`base.dimension`). -/
structure Dimension3 where
  length : ℚ
  width : ℚ
  height : ℚ
  deriving Repr, DecidableEq

/-- `osi3.Orientation3d` (`base.orientation`). -/
structure Orientation3 where
  yaw : ℚ
  pitch : ℚ
  roll : ℚ
  deriving Repr, DecidableEq

/-- The parts of `osi3.BaseMoving` read by the generator and the utilities. -/
structure BaseMoving where
  position : Vector3
  orientation : Orientation3
  dimension : Dimension3
  deriving Repr, DecidableEq

/-- The parts of `osi3.MovingObject` read by this repository.
`vehicle_attributes_bbcenter_to_rear` is `some v` when the trace sets
`vehicle_attributes.bbcenter_to_rear`, `none` when the submessage is absent:
Python protobuf field access on an absent submessage returns the default
instance, never `None`. -/
structure OSIMovingObject where
  id : ℕ
  base : BaseMoving
  type : ℕ
  vehicle_classification_type : ℕ
  vehicle_attributes_bbcenter_to_rear : Option Vector3
  deriving Repr, DecidableEq

/-- Python access `osi_moving_object.vehicle_attributes.bbcenter_to_rear`:
the stored vector when present, the all-zero default instance otherwise. -/
def OSIMovingObject.bbcenterToRear (mo : OSIMovingObject) : Vector3 :=
  mo.vehicle_attributes_bbcenter_to_rear.getD ⟨0, 0, 0⟩

/-- One message of a `GroundTruth` trace (for a `SensorView` trace the same
fields are read through `global_ground_truth`, so the model covers both).
`host_vehicle_id` is `some v` when the trace sets the field; Python access
`.value` on the unset field reads as `0`. -/
structure GroundTruthMsg where
  timestamp : Timestamp
  host_vehicle_id : Option ℕ
  moving_object : List OSIMovingObject
  deriving Repr, DecidableEq

/-! ## `generation/osi2osc.py` -/

/-- One row of the pandas trajectory DataFrame
(`timestamp, x, y, z, h, p, r`). -/
structure TrajRow where
  timestamp : ℚ
  x : ℚ
  y : ℚ
  z : ℚ
  h : ℚ
  p : ℚ
  r : ℚ
  deriving Repr, DecidableEq

/-- Conversion state of `osi2osc.OSI2OSCMovingObject`. -/
structure OSI2OSCMovingObject where
  id : ℕ
  entity_ref : String
  length_static : ℚ
  width_static : ℚ
  height_static : ℚ
  type : ℕ
  vehicle_type : ℕ
  trajectory : List TrajRow
  bbcenter_to_rear_x : ℚ
  bbcenter_to_rear_y : ℚ
  bbcenter_to_rear_z : ℚ
  deriving Repr, DecidableEq

/-- `OSI2OSCMovingObject.__init__`.  The three `bbcenter_to_rear_*`
arguments default to `None` in Python; `x == None` is `False` for every
float `x`, so the branch structure is: all three `None` → length/height
derived default, all three non-`None` → verbatim, mixed → `RuntimeError`. -/
def OSI2OSCMovingObject.init (id : ℕ) (length_static width_static height_static : ℚ)
    (type vehicle_type : ℕ) (bbx bby bbz : Option ℚ) (host_vehicle : Bool) :
    Except String OSI2OSCMovingObject :=
  let entity_ref := if host_vehicle then "Ego" else "osi_moving_object_" ++ toString id
  match bbx, bby, bbz with
  | none, none, none =>
      .ok { id, entity_ref, length_static, width_static, height_static, type, vehicle_type
            trajectory := []
            bbcenter_to_rear_x := -length_static * (3 / 10)
            bbcenter_to_rear_y := 0
            bbcenter_to_rear_z := -height_static * (1 / 2) }
  | some x, some y, some z =>
      .ok { id, entity_ref, length_static, width_static, height_static, type, vehicle_type
            trajectory := []
            bbcenter_to_rear_x := x
            bbcenter_to_rear_y := y
            bbcenter_to_rear_z := z }
  | _, _, _ => .error "RuntimeError: Problem with bbcenter_to_rear"

/-- `OSI2OSCMovingObject.append_trajectory_row`. -/
def OSI2OSCMovingObject.appendRow (o : OSI2OSCMovingObject) (row : TrajRow) :
    OSI2OSCMovingObject :=
  { o with trajectory := o.trajectory ++ [row] }

/-- The trajectory row recorded for a moving object at a message timestamp:
bounding-box-center position and yaw/pitch/roll orientation. -/
def rowOf (ts : ℚ) (mo : OSIMovingObject) : TrajRow :=
  { timestamp := ts
    x := mo.base.position.x, y := mo.base.position.y, z := mo.base.position.z
    h := mo.base.orientation.yaw, p := mo.base.orientation.pitch
    r := mo.base.orientation.roll }

/-- One step of `parse_moving_objects` for one moving object of one message:
first-seen ids create conversion state (passing the protobuf
`vehicle_attributes.bbcenter_to_rear` field values, which are plain floats,
so never `None`), already-seen ids only append a trajectory row. -/
def parseStep (host_vehicle_id : Option ℕ) (ts : ℚ)
    (acc : List OSI2OSCMovingObject) (mo : OSIMovingObject) :
    Except String (List OSI2OSCMovingObject) :=
  if acc.any (fun o => o.id == mo.id) then
    .ok (acc.map (fun o => if o.id == mo.id then o.appendRow (rowOf ts mo) else o))
  else
    match OSI2OSCMovingObject.init mo.id
      mo.base.dimension.length mo.base.dimension.width mo.base.dimension.height
      mo.type mo.vehicle_classification_type
      (some mo.bbcenterToRear.x) (some mo.bbcenterToRear.y) (some mo.bbcenterToRear.z)
      (host_vehicle_id == some mo.id) with
    | .error e => .error e
    | .ok obj => .ok (acc ++ [obj.appendRow (rowOf ts mo)])

/-- The inner loop of `parse_moving_objects`: all moving objects of one
message, at the message's timestamp. -/
def parseObjectsOfMsg (host_vehicle_id : Option ℕ) (ts : ℚ)
    (acc : List OSI2OSCMovingObject) :
    List OSIMovingObject → Except String (List OSI2OSCMovingObject)
  | [] => .ok acc
  | mo :: rest =>
    match parseStep host_vehicle_id ts acc mo with
    | .error e => .error e
    | .ok acc' => parseObjectsOfMsg host_vehicle_id ts acc' rest

/-- The outer loop of `parse_moving_objects` over the trace's messages. -/
def parseMsgs (host_vehicle_id : Option ℕ) (acc : List OSI2OSCMovingObject) :
    List GroundTruthMsg → Except String (List OSI2OSCMovingObject)
  | [] => .ok acc
  | msg :: rest =>
    match parseObjectsOfMsg host_vehicle_id (timestamp_osi_to_float msg.timestamp)
        acc msg.moving_object with
    | .error e => .error e
    | .ok acc' => parseMsgs host_vehicle_id acc' rest

/-- `osi2osc.parse_moving_objects`: scan every message of the trace and every
moving object of the message; comparison with the host-vehicle id is
`osi_moving_object.id.value == host_vehicle_id` (false when the Python value
is `None`). -/
def parse_moving_objects (trace : List GroundTruthMsg) (host_vehicle_id : Option ℕ) :
    Except String (List OSI2OSCMovingObject) :=
  parseMsgs host_vehicle_id [] trace

/-- The class-level dict `OSI2OSCMovingObject.osi_vehicle_type_to_osc_category`.
Outer `none` = key absent from the dict (Python `KeyError`); `some none` =
the key maps to Python `None`. -/
def osi_vehicle_type_to_osc_category (t : ℕ) : Option (Option String) :=
  match t with
  | 0 => some none
  | 1 => some none
  | 2 => some (some "car")
  | 3 => some (some "car")
  | 4 => some (some "car")
  | 5 => some (some "car")
  | 6 => some (some "van")
  | 7 => some (some "truck")
  | 8 => some none
  | 9 => some (some "trailer")
  | 10 => some (some "motorbike")
  | 11 => some (some "bicycle")
  | 12 => some (some "bus")
  | 13 => some (some "tram")
  | 14 => some (some "train")
  | 15 => some none
  | 16 => some none
  | 17 => some none
  | _ => none

/-- The attributes of the emitted `ScenarioObject` XML element tree that the
claims speak about (the fixed `Performance`/`Axles` constants are literal
strings in the source and carry no computation). -/
structure ScenarioObjectXml where
  name : String
  vehicle_name : String
  vehicleCategory : String
  center_x : ℚ
  center_y : ℚ
  center_z : ℚ
  dim_length : ℚ
  dim_width : ℚ
  dim_height : ℚ
  deriving Repr, DecidableEq

/-- `OSI2OSCMovingObject.build_osc_scenario_object`: dict lookup of the
vehicle category (`KeyError` if the enum value is not a dict key), then
`assert osc_vehicle_category != None` (`AssertionError` on a `None`
mapping), else the `ScenarioObject` element. -/
def OSI2OSCMovingObject.build_osc_scenario_object (o : OSI2OSCMovingObject) :
    Except String ScenarioObjectXml :=
  match osi_vehicle_type_to_osc_category o.vehicle_type with
  | none => .error "KeyError"
  | some none => .error "AssertionError: Missing OSI2OSC mapping for vehicle category."
  | some (some cat) =>
      .ok { name := o.entity_ref
            vehicle_name := "osi_moving_object_vehicle_" ++ toString o.id
            vehicleCategory := cat
            center_x := -o.bbcenter_to_rear_x
            center_y := -o.bbcenter_to_rear_y
            center_z := o.height_static / 2
            dim_length := o.length_static
            dim_width := o.width_static
            dim_height := o.height_static }

/-- Host-vehicle id resolution in `osi2osc.osi2osc`:
`msg = next(reader.get_messages())` raises `StopIteration` on an empty
trace; `msg.host_vehicle_id.value if msg else None` — protobuf messages are
always truthy and `.value` of an unset `Identifier` reads as `0`, so the
`None` branch (and with it the no-host-vehicle warning) is unreachable. -/
def osi2osc_host_vehicle_id (trace : List GroundTruthMsg) : Except String (Option ℕ) :=
  match trace with
  | [] => .error "StopIteration"
  | msg :: _ => .ok (some (msg.host_vehicle_id.getD 0))

/-- The `ScenarioObject` names emitted by `osi2osc.osi2osc`, in document
order: objects are reordered so entities named `"Ego"` come first, and each
object's `ScenarioObject` carries its `entity_ref` as the `name`
attribute. -/
def osi2osc_entity_names (trace : List GroundTruthMsg) : Except String (List String) :=
  match osi2osc_host_vehicle_id trace with
  | .error e => .error e
  | .ok host =>
    match parse_moving_objects trace host with
    | .error e => .error e
    | .ok objs =>
      let ego := objs.filter (fun o => o.entity_ref = "Ego")
      let others := objs.filter (fun o => o.entity_ref ≠ "Ego")
      .ok ((ego ++ others).map (fun o => o.entity_ref))

/-- A moving object whose trace supplies no `vehicle_attributes`
(`vehicle_attributes.bbcenter_to_rear` unset), with static dimensions
`length = 4`, `width = 2`, `height = 2`. -/
def noAttrsObject : OSIMovingObject :=
  { id := 1
    base := { position := ⟨0, 0, 0⟩, orientation := ⟨0, 0, 0⟩, dimension := ⟨4, 2, 2⟩ }
    type := 2
    vehicle_classification_type := 4
    vehicle_attributes_bbcenter_to_rear := none }

/-- A single-message trace containing only `noAttrsObject`. -/
def noAttrsTrace : List GroundTruthMsg :=
  [{ timestamp := ⟨0, 0⟩, host_vehicle_id := none, moving_object := [noAttrsObject] }]

/-- C1: on a trace without vehicle attributes the conversion state's offset
vector is `(0, 0, 0)` — not the claimed default `(−0.3×length, 0,
−0.5×height) = (−6/5, 0, −1)` — because `parse_moving_objects` passes the
protobuf field values (floats, never `None`) into `__init__`, making the
default branch unreachable. -/
theorem bbcenter_default_branch_unreachable :
    ∃ o, parse_moving_objects noAttrsTrace none = .ok [o] ∧
      o.length_static = 4 ∧ o.height_static = 2 ∧
      o.bbcenter_to_rear_x = 0 ∧ o.bbcenter_to_rear_y = 0 ∧ o.bbcenter_to_rear_z = 0 ∧
      o.bbcenter_to_rear_x ≠ -o.length_static * (3 / 10) ∧
      o.bbcenter_to_rear_z ≠ -o.height_static * (1 / 2) := by
  refine ⟨{ id := 1
            entity_ref := "osi_moving_object_1"
            length_static := 4, width_static := 2, height_static := 2
            type := 2, vehicle_type := 4
            trajectory := [⟨0, 0, 0, 0, 0, 0, 0⟩]
            bbcenter_to_rear_x := 0, bbcenter_to_rear_y := 0, bbcenter_to_rear_z := 0 },
          ?_, rfl, rfl, rfl, rfl, rfl, ?_, ?_⟩
  · simp [parse_moving_objects, parseMsgs, parseObjectsOfMsg, parseStep,
      OSI2OSCMovingObject.init, OSI2OSCMovingObject.appendRow, rowOf,
      OSIMovingObject.bbcenterToRear, noAttrsTrace, noAttrsObject,
      timestamp_osi_to_float]
    decide
  · norm_num
  · norm_num

/-- A single-message trace with no `host_vehicle_id` set whose only moving
object has id `0` (the protobuf default value of an unset `Identifier`). -/
def noHostTrace : List GroundTruthMsg :=
  [{ timestamp := ⟨0, 0⟩
     host_vehicle_id := none
     moving_object :=
       [{ id := 0
          base := { position := ⟨0, 0, 0⟩, orientation := ⟨0, 0, 0⟩, dimension := ⟨4, 2, 2⟩ }
          type := 2
          vehicle_classification_type := 4
          vehicle_attributes_bbcenter_to_rear := none }] }]

/-- C5: on a trace whose messages carry no host-vehicle identifier the
generator still emits a distinguished ego entity whenever an object has id
`0`: reading the unset `host_vehicle_id` field yields the protobuf default
`0`, never `None`, so the object with id `0` is flagged as host vehicle and
its `ScenarioObject` is named `"Ego"` instead of `osi_moving_object_0`. -/
theorem unset_host_vehicle_id_still_names_ego :
    osi2osc_entity_names noHostTrace = .ok ["Ego"] ∧
      "Ego" ≠ "osi_moving_object_0" := by
  refine ⟨?_, by decide⟩
  simp [osi2osc_entity_names, osi2osc_host_vehicle_id, parse_moving_objects,
    parseMsgs, parseObjectsOfMsg, parseStep, OSI2OSCMovingObject.init,
    OSI2OSCMovingObject.appendRow, rowOf, OSIMovingObject.bbcenterToRear,
    noHostTrace, timestamp_osi_to_float]

/-- The OSI-vehicle-type → OpenSCENARIO `vehicleCategory` table exactly as
the claim's specification sentence states it (2–5 car, 6 van, 7 truck,
9 trailer, 10 motorbike, 11 bicycle, 12 bus, 13 tram, 14 train). -/
def claimVehicleCategory (t : ℕ) : String :=
  if 2 ≤ t ∧ t ≤ 5 then "car"
  else if t = 6 then "van"
  else if t = 7 then "truck"
  else if t = 9 then "trailer"
  else if t = 10 then "motorbike"
  else if t = 11 then "bicycle"
  else if t = 12 then "bus"
  else if t = 13 then "tram"
  else if t = 14 then "train"
  else ""

/-- C7: for every moving object with OSI vehicle classification type in
`0..17`, building its `ScenarioObject` fails with the assertion message
exactly when the type is in `{0, 1, 8, 15, 16, 17}`, and otherwise succeeds
with the `vehicleCategory` given by the specification's table. -/
theorem vehicle_category_mapping (o : OSI2OSCMovingObject) (h : o.vehicle_type < 18) :
    (o.vehicle_type ∈ ([0, 1, 8, 15, 16, 17] : List ℕ) →
      o.build_osc_scenario_object =
        .error "AssertionError: Missing OSI2OSC mapping for vehicle category.") ∧
    (o.vehicle_type ∉ ([0, 1, 8, 15, 16, 17] : List ℕ) →
      ∃ x, o.build_osc_scenario_object = .ok x ∧
        x.vehicleCategory = claimVehicleCategory o.vehicle_type) := by
  obtain ⟨i, e, l, w, ht2, ty, vt, tr, bx, b2, b3⟩ := o
  dsimp only at h ⊢
  interval_cases vt <;>
    first
      | exact ⟨fun _ => rfl, fun hm => absurd (by decide) hm⟩
      | exact ⟨fun hm => absurd hm (by decide), fun _ => ⟨_, rfl, rfl⟩⟩

/-- A moving object with vehicle classification type `7` (heavy truck). -/
def truckObject : OSI2OSCMovingObject :=
  { id := 3
    entity_ref := "osi_moving_object_3"
    length_static := 10, width_static := 3, height_static := 4
    type := 2, vehicle_type := 7
    trajectory := []
    bbcenter_to_rear_x := -3, bbcenter_to_rear_y := 0, bbcenter_to_rear_z := -2 }

/-- C7 witness: the mapping theorem applied to a type-7 (truck) object. -/
theorem vehicle_category_mapping_witness :
    (truckObject.vehicle_type ∈ ([0, 1, 8, 15, 16, 17] : List ℕ) →
      truckObject.build_osc_scenario_object =
        .error "AssertionError: Missing OSI2OSC mapping for vehicle category.") ∧
    (truckObject.vehicle_type ∉ ([0, 1, 8, 15, 16, 17] : List ℕ) →
      ∃ x, truckObject.build_osc_scenario_object = .ok x ∧
        x.vehicleCategory = claimVehicleCategory truckObject.vehicle_type) :=
  vehicle_category_mapping truckObject (by decide)

/-! ## Path and string helpers (pathlib / Python builtins) -/

/-- Split a character list at every `'.'` (the pieces, in order, without the
dots); mirrors Python `str.split(".")`, which always returns at least one
piece. -/
def splitOnDot : List Char → List (List Char)
  | [] => [[]]
  | c :: rest =>
    let r := splitOnDot rest
    if c = '.' then [] :: r
    else
      match r with
      | [] => [[c]]
      | p :: ps => (c :: p) :: ps

/-- `pathlib.PurePath.suffix`: the final extension of the file name,
including its dot — empty when the name has no dot, when the only dot leads
the name (hidden files), or when the name ends in a dot.  Note it is only
the LAST extension: the suffix of `trace.osi.xz` is `.xz`. -/
def pySuffix (name : String) : String :=
  match splitOnDot name.data with
  | [] => ""
  | [_] => ""
  | [[], _] => ""
  | parts =>
    match parts.getLast? with
    | none => ""
    | some last => if last = [] then "" else "." ++ String.mk last

/-- `pathlib.PurePath.stem`: the file name with `pySuffix` removed. -/
def pyStem (name : String) : String :=
  String.mk (name.data.take (name.data.length - (pySuffix name).data.length))

/-- Python `str.lower()` (ASCII is all that reaches it here). -/
def pyLower (s : String) : String :=
  String.mk (s.data.map Char.toLower)

/-- Python `int(s)` on a version component: a non-empty digit string parses
to its value, anything else raises `ValueError` (`none`).  (Python's `int`
also accepts signs and surrounding whitespace; version strings written by
this code never contain them.) -/
def pyParseNat (cs : List Char) : Option ℕ :=
  match cs with
  | [] => none
  | _ =>
    if cs.all Char.isDigit then
      some (cs.foldl (fun n c => 10 * n + (c.toNat - 48)) 0)
    else none

/-- `major, minor, patch = map(int, s.split("."))`: three dot-separated
integer components, else a `ValueError` (`none`). -/
def pyParseTriple (s : String) : Option (ℕ × ℕ × ℕ) :=
  match (splitOnDot s.data).map pyParseNat with
  | [some a, some b, some c] => some (a, b, c)
  | _ => none

/-- Python dict lookup `d.get(k)` on a string-keyed dict modelled as an
association list. -/
def dictGet (d : List (String × String)) (k : String) : Option String :=
  (d.find? (fun kv => kv.1 == k)).map (fun kv => kv.2)

/-- Python dict assignment `d[k] = v`. -/
def dictSet (d : List (String × String)) (k v : String) : List (String × String) :=
  if d.any (fun kv => kv.1 == k) then
    d.map (fun kv => if kv.1 == k then (k, v) else kv)
  else d ++ [(k, v)]

/-! ## `utils/osi_channel_specification.py` -/

/-- `TraceFileFormat`. -/
inductive TraceFileFormat where
  | single_channel
  | multi_channel
  deriving Repr, DecidableEq

/-- `OSIChannelSpecification` (dataclass): `path`, optional `message_type`,
optional `topic`, optional `metadata` dict. -/
structure OSIChannelSpecification where
  path : String
  message_type : Option String
  topic : Option String
  metadata : Option (List (String × String))
  deriving Repr, DecidableEq

/-- `FormatMapper.get_format(path.suffix)` via the
`OSIChannelSpecification.trace_file_format` property: extension-to-format
dict lookup, `KeyError` for unknown extensions. -/
def trace_file_format (path : String) : Except String TraceFileFormat :=
  match pyLower (pySuffix path) with
  | ".osi" => .ok .single_channel
  | ".xz" => .ok .single_channel
  | ".lzma" => .ok .single_channel
  | ".mcap" => .ok .multi_channel
  | _ => .error "KeyError: unsupported extension"

/-! ## `utils/osi_writer.py` -/

/-- State of `OSITraceWriterSingle` after `__init__`. -/
structure OSITraceWriterSingle where
  path : String
  message_type : Option String
  compress : Bool
  size : ℕ
  size_uncompressed : ℕ
  written_message_count : ℕ
  deriving Repr, DecidableEq

/-- `OSITraceWriterSingle.__init__`: with `compress=True` the path's
`suffix` must equal `".osi.xz"`, with `compress=False` it must equal
`".osi"`, else `ValueError`. -/
def OSITraceWriterSingle.init (path : String) (message_type : Option String)
    (compress : Bool) : Except String OSITraceWriterSingle :=
  if compress then
    if pySuffix path = ".osi.xz" then
      .ok { path, message_type, compress
            size := 0, size_uncompressed := 0, written_message_count := 0 }
    else
      .error "ValueError: File extension must be '.osi.xz' for compressed OSI binary files."
  else
    if pySuffix path = ".osi" then
      .ok { path, message_type, compress
            size := 0, size_uncompressed := 0, written_message_count := 0 }
    else
      .error "ValueError: File extension must be '.osi' for OSI binary files."

/-- The fields of an OSI message consulted by `OSITraceWriterMulti.write`:
the embedded interface version triple and the timestamp. -/
structure OSIMessage where
  version_major : ℕ
  version_minor : ℕ
  version_patch : ℕ
  timestamp : Timestamp
  deriving Repr, DecidableEq

/-- `f"{major}.{minor}.{patch}"`. -/
def formatTriple (a b c : ℕ) : String :=
  toString a ++ "." ++ toString b ++ "." ++ toString c

/-- The keys of `MESSAGE_TYPE_MAP` (the ten OSI top-level message types). -/
def osiMessageTypeNames : List String :=
  ["SensorView", "SensorViewConfiguration", "GroundTruth", "HostVehicleData",
   "SensorData", "TrafficCommand", "TrafficCommandUpdate", "TrafficUpdate",
   "MotionRequest", "StreamingUpdate"]

/-- State of `OSITraceWriterMulti`: active channels with their in-memory
per-channel metadata (`active_channels` and `channel_metadata` share their
topic keys because `add_osi_channel` fills both together), plus the
messages handed to the MCAP writer, in order. -/
structure OSITraceWriterMulti where
  path : String
  net_asam_osi_metadata : Option (List (String × String))
  channels : List (String × List (String × String))
  written : List (String × OSIMessage)
  written_message_count : ℕ
  deriving Repr, DecidableEq

/-- `OSITraceWriterMulti.__init__`: requires a `.mcap` suffix and a
not-yet-existing file (`file_exists` abstracts `path.exists()`); the
metadata completeness checks only log. -/
def OSITraceWriterMulti.initWriter (path : String) (file_exists : Bool)
    (net_asam_osi_metadata : Option (List (String × String))) :
    Except String OSITraceWriterMulti :=
  if pySuffix path ≠ ".mcap" then
    .error "ValueError: File extension must be '.mcap' for MCAP files."
  else if file_exists then
    .error "ValueError: File already exists. Appending is not supported."
  else
    .ok { path, net_asam_osi_metadata, channels := [], written := []
          written_message_count := 0 }

/-- `OSITraceWriterMulti.add_osi_channel`: path must match, topic must be
new (a `None` topic is auto-filled with the file stem), message type must
be set and a `MESSAGE_TYPE_MAP` key; registers the channel id and metadata.
Returns the (possibly topic-filled) specification as the source does. -/
def OSITraceWriterMulti.add_osi_channel (w : OSITraceWriterMulti)
    (spec : OSIChannelSpecification) :
    Except String (OSITraceWriterMulti × OSIChannelSpecification) :=
  if spec.path ≠ w.path then
    .error "ValueError: Channel path does not match the MCAP writer path."
  else if (match spec.topic with
           | some t => w.channels.any (fun ch => ch.1 == t)
           | none => false) then
    .error "ValueError: Channel with topic already exists in the MCAP writer."
  else if spec.message_type = none then
    .error "ValueError: Channel message type is not set."
  else
    let spec1 :=
      match spec.topic with
      | none => { spec with topic := some (pyStem spec.path) }
      | some _ => spec
    let metadata := spec1.metadata.getD []
    if (spec1.message_type.getD "") ∈ osiMessageTypeNames then
      .ok ({ w with
               channels := w.channels ++ [(spec1.topic.getD "", metadata)] },
           spec1)
    else
      .error "KeyError: unknown OSI message type"

/-- The metadata key under which a channel's OSI version is tracked. -/
def osiVersionKey : String := "net.asam.osi.trace.channel.osi_version"

/-- The metadata key under which a channel's protobuf version is tracked. -/
def pbVersionKey : String := "net.asam.osi.trace.channel.protobuf_version"

/-- `OSITraceWriterMulti.write(message, topic)`: unknown topics are
rejected; a truthy recorded `net.asam.osi.trace.channel.osi_version` is
parsed and compared against the message's embedded version triple
(`ValueError` on mismatch or unparsable version, before anything is
written); a missing (or empty, hence falsy) recorded version is lazily set
to the message's triple.  The channel's
`net.asam.osi.trace.channel.protobuf_version` is then overwritten with the
running protobuf version `pb` and the message is appended. -/
def OSITraceWriterMulti.write (pb : String) (w : OSITraceWriterMulti)
    (msg : OSIMessage) (topic : String) : Except String OSITraceWriterMulti :=
  match (w.channels.find? (fun ch => ch.1 == topic)) with
  | none => .error "ValueError: Topic not found in writing channels."
  | some ch =>
    let meta := ch.2
    let step1 : Except String (List (String × String)) :=
      match dictGet meta osiVersionKey with
      | some v =>
        if v = "" then
          .ok (dictSet meta osiVersionKey
                (formatTriple msg.version_major msg.version_minor msg.version_patch))
        else
          match pyParseTriple v with
          | none => .error "ValueError: invalid channel OSI version string"
          | some (a, b, c) =>
            if msg.version_major ≠ a ∨ msg.version_minor ≠ b ∨ msg.version_patch ≠ c then
              .error "ValueError: Message version does not match channel OSI version."
            else .ok meta
      | none =>
        .ok (dictSet meta osiVersionKey
              (formatTriple msg.version_major msg.version_minor msg.version_patch))
    match step1 with
    | .error e => .error e
    | .ok meta1 =>
      let meta2 := dictSet meta1 pbVersionKey pb
      .ok { w with
              channels := w.channels.map
                (fun c => if c.1 == topic then (c.1, meta2) else c)
              written := w.written ++ [(topic, msg)]
              written_message_count := w.written_message_count + 1 }

/-- The two trace-writer backends behind `OSIChannelWriter.source`. -/
inductive WriterSource where
  | single (s : OSITraceWriterSingle)
  | multi (m : OSITraceWriterMulti)
  deriving Repr, DecidableEq

/-- `self.source.path` (both backends define it). -/
def WriterSource.path : WriterSource → String
  | .single s => s.path
  | .multi m => m.path

/-- Attribute access `self.source.channel_metadata`: only
`OSITraceWriterMulti` defines the attribute; on `OSITraceWriterSingle` it
raises `AttributeError`. -/
def WriterSource.channelMetadata :
    WriterSource → Except String (List (String × List (String × String)))
  | .single _ =>
    .error "AttributeError: 'OSITraceWriterSingle' object has no attribute 'channel_metadata'"
  | .multi m => .ok m.channels

/-- `OSIChannelWriter`: one underlying writer bound to one topic. -/
structure OSIChannelWriter where
  source : WriterSource
  topic : Option String
  message_type : Option String
  deriving Repr, DecidableEq

/-- `OSIChannelWriter.from_osi_channel_specification`: picks the writer kind
from the path's format; multi-channel creates the MCAP writer and registers
the one channel, single-channel creates the binary writer (with the default
`compress=False`) and leaves the specification untouched. -/
def OSIChannelWriter.from_osi_channel_specification (file_exists : Bool)
    (spec : OSIChannelSpecification) : Except String OSIChannelWriter :=
  match trace_file_format spec.path with
  | .error e => .error e
  | .ok .multi_channel =>
    match OSITraceWriterMulti.initWriter spec.path file_exists spec.metadata with
    | .error e => .error e
    | .ok m =>
      match m.add_osi_channel spec with
      | .error e => .error e
      | .ok (m1, spec_out) =>
        .ok { source := .multi m1, topic := spec_out.topic
              message_type := spec_out.message_type }
  | .ok .single_channel =>
    match OSITraceWriterSingle.init spec.path spec.message_type false with
    | .error e => .error e
    | .ok s =>
      .ok { source := .single s, topic := spec.topic
            message_type := spec.message_type }

/-- `OSIChannelWriter.get_channel_specification`: reads
`self.source.channel_metadata` (an `AttributeError` on the single-channel
backend), then `.get(self.topic, {})`. -/
def OSIChannelWriter.get_channel_specification (w : OSIChannelWriter) :
    Except String OSIChannelSpecification :=
  match w.source.channelMetadata with
  | .error e => .error e
  | .ok cm =>
    .ok { path := w.source.path
          message_type := w.message_type
          topic := w.topic
          metadata :=
            some ((cm.find? (fun ch => some ch.1 == w.topic)).map
                    (fun ch => ch.2) |>.getD []) }

/-! ## Facts about the path/dict helpers -/

theorem splitOnDot_ne_nil (l : List Char) : splitOnDot l ≠ [] := by
  cases l with
  | nil => simp [splitOnDot]
  | cons c rest =>
    simp only [splitOnDot]
    split
    · simp
    · split <;> simp

theorem not_mem_dot_splitOnDot (l : List Char) : ∀ p ∈ splitOnDot l, '.' ∉ p := by
  induction l with
  | nil =>
    intro p hp
    simp [splitOnDot] at hp
    simp [hp]
  | cons c rest ih =>
    intro p hp
    simp only [splitOnDot] at hp
    by_cases hc : c = '.'
    · rw [if_pos hc] at hp
      rcases List.mem_cons.mp hp with h | h
      · subst h; simp
      · exact ih p h
    · rw [if_neg hc] at hp
      cases hsp : splitOnDot rest with
      | nil =>
        rw [hsp] at hp
        simp at hp
        subst hp
        simp
        exact fun h => hc h.symm
      | cons q ps =>
        rw [hsp] at hp
        rcases List.mem_cons.mp hp with h | h
        · subst h
          intro hmem
          rcases List.mem_cons.mp hmem with h2 | h2
          · exact hc h2.symm
          · exact ih q (hsp ▸ List.mem_cons_self q ps) h2
        · exact ih p (hsp ▸ List.mem_cons.mpr (Or.inr h))

theorem mem_of_getLast?_eq_some {α : Type} {l : List α} {x : α}
    (h : l.getLast? = some x) : x ∈ l := by
  induction l with
  | nil => simp [List.getLast?] at h
  | cons a t ih =>
    cases t with
    | nil =>
      simp [List.getLast?] at h
      simp [h]
    | cons b t2 =>
      rw [List.getLast?_cons_cons] at h
      exact List.mem_cons.mpr (Or.inr (ih h))

/-- `pathlib` suffixes contain exactly one dot, so no path has suffix
`".osi.xz"`. -/
theorem pySuffix_ne_osi_xz (name : String) : pySuffix name ≠ ".osi.xz" := by
  unfold pySuffix
  split
  · decide
  · decide
  · decide
  · rename_i parts h1 h2 h3
    split
    · decide
    · rename_i last hlast
      by_cases hemp : last = []
      · rw [if_pos hemp]; decide
      · rw [if_neg hemp]
        intro hcontr
        have hdata : ('.' :: last) = ['.', 'o', 's', 'i', '.', 'x', 'z'] := by
          have := congrArg String.data hcontr
          simpa using this
        have hlast2 : last = ['o', 's', 'i', '.', 'x', 'z'] := by
          injection hdata
        have hmem : last ∈ splitOnDot name.data := mem_of_getLast?_eq_some hlast
        have := not_mem_dot_splitOnDot name.data last hmem
        rw [hlast2] at this
        simp at this

/-- C3: the single-channel writer constructor with `compress=True` raises
`ValueError` for EVERY path — including every path ending in `.osi.xz` —
because `Path.suffix` only yields the final extension (`.xz`), which never
equals the compared literal `".osi.xz"`. -/
theorem single_writer_compress_always_rejects (path : String)
    (message_type : Option String) :
    OSITraceWriterSingle.init path message_type true =
      .error "ValueError: File extension must be '.osi.xz' for compressed OSI binary files." := by
  simp [OSITraceWriterSingle.init, pySuffix_ne_osi_xz path]

/-- A single-channel output specification (`out.osi`, `SensorView`). -/
def singleOutSpec : OSIChannelSpecification :=
  { path := "out.osi", message_type := some "SensorView", topic := none
    metadata := some [] }

/-- C4: a unified channel writer created from a single-channel specification
is constructed fine, but `get_channel_specification()` raises
`AttributeError` because `OSITraceWriterSingle` has no `channel_metadata`
attribute. -/
theorem get_channel_specification_raises_for_single_writer :
    ∃ w, OSIChannelWriter.from_osi_channel_specification false singleOutSpec = .ok w ∧
      w.get_channel_specification =
        .error "AttributeError: 'OSITraceWriterSingle' object has no attribute 'channel_metadata'" := by
  refine ⟨_, rfl, rfl⟩

theorem find?_cons_pos {α : Type} (p : α → Bool) (a : α) (l : List α)
    (h : p a = true) : (a :: l).find? p = some a := by
  simp [List.find?, h]

theorem find?_cons_neg {α : Type} (p : α → Bool) (a : α) (l : List α)
    (h : p a = false) : (a :: l).find? p = l.find? p := by
  simp [List.find?, h]

theorem dictGet_cons (kv : String × String) (d : List (String × String))
    (k : String) :
    dictGet (kv :: d) k = if kv.1 == k then some kv.2 else dictGet d k := by
  by_cases hp : (kv.1 == k) = true
  · rw [if_pos hp]
    unfold dictGet
    rw [find?_cons_pos (fun kv => kv.1 == k) kv d hp]
    rfl
  · rw [if_neg hp]
    unfold dictGet
    rw [find?_cons_neg (fun kv => kv.1 == k) kv d (by simpa using hp)]

theorem dictGet_map_update_self (d : List (String × String)) (k v : String)
    (hany : (d.any (fun kv => kv.1 == k)) = true) :
    dictGet (d.map (fun kv => if kv.1 == k then (k, v) else kv)) k = some v := by
  induction d with
  | nil => simp at hany
  | cons kv rest ih =>
    rw [List.map_cons]
    by_cases hk : (kv.1 == k) = true
    · rw [if_pos hk, dictGet_cons]
      simp
    · rw [if_neg hk, dictGet_cons, if_neg hk]
      apply ih
      simp only [List.any_cons, Bool.or_eq_true] at hany
      rcases hany with h | h
      · exact absurd h hk
      · exact h

theorem dictGet_append_single_self (d : List (String × String)) (k v : String) :
    (d.any (fun kv => kv.1 == k)) = false → dictGet (d ++ [(k, v)]) k = some v := by
  induction d with
  | nil =>
    intro _
    rw [List.nil_append, dictGet_cons]
    simp
  | cons kv rest ih =>
    intro hany
    simp only [List.any_cons, Bool.or_eq_false_iff] at hany
    rw [List.cons_append, dictGet_cons, if_neg (by simp [hany.1])]
    exact ih hany.2

theorem dictGet_map_update_ne (d : List (String × String)) (k k' v : String)
    (h : k' ≠ k) :
    dictGet (d.map (fun kv => if kv.1 == k then (k, v) else kv)) k' =
      dictGet d k' := by
  induction d with
  | nil => rfl
  | cons kv rest ih =>
    rw [List.map_cons]
    by_cases hk : (kv.1 == k) = true
    · have h1 : kv.1 = k := by simpa using hk
      have h2 : ((k : String) == k') = false := by
        simp only [beq_eq_false_iff_ne]
        exact fun he => h he.symm
      rw [if_pos hk, dictGet_cons, dictGet_cons, ih]
      rw [show ((k, v).1 == k') = false from h2]
      rw [show (kv.1 == k') = false from h1 ▸ h2]
      simp
    · rw [if_neg hk, dictGet_cons, dictGet_cons, ih]

theorem dictGet_append_single_ne (d : List (String × String)) (k k' v : String)
    (h : k' ≠ k) :
    dictGet (d ++ [(k, v)]) k' = dictGet d k' := by
  have h2 : ((k : String) == k') = false := by
    simp only [beq_eq_false_iff_ne]
    exact fun he => h he.symm
  induction d with
  | nil =>
    rw [List.nil_append, dictGet_cons]
    rw [show ((k, v).1 == k') = false from h2]
    rfl
  | cons kv rest ih =>
    rw [List.cons_append, dictGet_cons, dictGet_cons, ih]

theorem dictGet_dictSet_self (d : List (String × String)) (k v : String) :
    dictGet (dictSet d k v) k = some v := by
  unfold dictSet
  by_cases hany : (d.any (fun kv => kv.1 == k)) = true
  · rw [if_pos hany]
    exact dictGet_map_update_self d k v hany
  · rw [if_neg hany]
    exact dictGet_append_single_self d k v (Bool.eq_false_iff.mpr hany)

theorem dictGet_dictSet_ne (d : List (String × String)) (k k' v : String)
    (h : k' ≠ k) :
    dictGet (dictSet d k v) k' = dictGet d k' := by
  unfold dictSet
  by_cases hany : (d.any (fun kv => kv.1 == k)) = true
  · rw [if_pos hany]
    exact dictGet_map_update_ne d k k' v h
  · rw [if_neg hany]
    exact dictGet_append_single_ne d k k' v h

theorem find?_map_update {α : Type} (l : List (String × α)) (t : String) (f : α)
    (x : String × α) (h : l.find? (fun c => c.1 == t) = some x) :
    (l.map (fun c => if c.1 == t then (c.1, f) else c)).find? (fun c => c.1 == t) =
      some (x.1, f) := by
  induction l with
  | nil => simp at h
  | cons hd tl ih =>
    rw [List.map_cons]
    by_cases hb : (hd.1 == t) = true
    · rw [find?_cons_pos (fun c => c.1 == t) hd tl hb] at h
      injection h with h
      subst h
      rw [if_pos hb]
      exact find?_cons_pos (fun c => c.1 == t) (hd.1, f) _ hb
    · rw [find?_cons_neg (fun c => c.1 == t) hd tl (by simpa using hb)] at h
      rw [if_neg hb, find?_cons_neg (fun c => c.1 == t) hd _ (by simpa using hb)]
      exact ih h

/-- C6: per-channel OSI-version invariant of `OSITraceWriterMulti.write`.
If the channel's tracked metadata records a (truthy) OSI version parsing to
a triple different from the message's `(major, minor, patch)`, the write
raises `ValueError` and nothing is written; if no OSI version is recorded
(key absent, or the falsy empty string), the write succeeds, appends
exactly this message, and records the message's version triple in the
channel metadata. -/
theorem write_osi_version_invariant (pb : String) (w : OSITraceWriterMulti)
    (topic : String) (msg : OSIMessage) (meta : List (String × String))
    (hch : w.channels.find? (fun ch => ch.1 == topic) = some (topic, meta)) :
    (∀ v a b c, dictGet meta osiVersionKey = some v → v ≠ "" →
      pyParseTriple v = some (a, b, c) →
      (msg.version_major, msg.version_minor, msg.version_patch) ≠ (a, b, c) →
      OSITraceWriterMulti.write pb w msg topic =
        .error "ValueError: Message version does not match channel OSI version.") ∧
    ((dictGet meta osiVersionKey = none ∨ dictGet meta osiVersionKey = some "") →
      ∃ w', OSITraceWriterMulti.write pb w msg topic = .ok w' ∧
        w'.written = w.written ++ [(topic, msg)] ∧
        ∃ meta', w'.channels.find? (fun ch => ch.1 == topic) = some (topic, meta') ∧
          dictGet meta' osiVersionKey =
            some (formatTriple msg.version_major msg.version_minor msg.version_patch)) := by
  have hkeys : osiVersionKey ≠ pbVersionKey := by decide
  constructor
  · intro v a b c hv hne hparse hdiff
    have hd : msg.version_major ≠ a ∨ msg.version_minor ≠ b ∨ msg.version_patch ≠ c := by
      by_contra hcon
      push_neg at hcon
      exact hdiff (by rw [hcon.1, hcon.2.1, hcon.2.2])
    unfold OSITraceWriterMulti.write
    rw [hch]
    simp only [hv, hparse]
    rw [if_neg hne, if_pos hd]
  · intro hrec
    unfold OSITraceWriterMulti.write
    rw [hch]
    rcases hrec with hv | hv
    · simp only [hv]
      refine ⟨_, rfl, rfl, ?_⟩
      refine ⟨_, find?_map_update w.channels topic _ (topic, meta) hch, ?_⟩
      rw [dictGet_dictSet_ne _ _ _ _ hkeys]
      exact dictGet_dictSet_self meta osiVersionKey _
    · simp only [hv, if_pos rfl]
      refine ⟨_, rfl, rfl, ?_⟩
      refine ⟨_, find?_map_update w.channels topic _ (topic, meta) hch, ?_⟩
      rw [dictGet_dictSet_ne _ _ _ _ hkeys]
      exact dictGet_dictSet_self meta osiVersionKey _

/-- A multi-channel writer with one channel `"gt"` whose metadata records
OSI version `"3.7.0"`. -/
def pinnedWriter : OSITraceWriterMulti :=
  { path := "trace.mcap"
    net_asam_osi_metadata := some []
    channels := [("gt", [(osiVersionKey, "3.7.0")])]
    written := []
    written_message_count := 0 }

/-- A message embedding OSI version `3.7.1`. -/
def msg371 : OSIMessage :=
  { version_major := 3, version_minor := 7, version_patch := 1
    timestamp := ⟨0, 0⟩ }

/-- C6 witness: the invariant applied to a channel pinned at `"3.7.0"` and a
message at version `3.7.1`. -/
theorem write_osi_version_invariant_witness :
    (∀ v a b c, dictGet [(osiVersionKey, "3.7.0")] osiVersionKey = some v → v ≠ "" →
      pyParseTriple v = some (a, b, c) →
      (msg371.version_major, msg371.version_minor, msg371.version_patch) ≠ (a, b, c) →
      OSITraceWriterMulti.write "4.25.3" pinnedWriter msg371 "gt" =
        .error "ValueError: Message version does not match channel OSI version.") ∧
    ((dictGet [(osiVersionKey, "3.7.0")] osiVersionKey = none ∨
        dictGet [(osiVersionKey, "3.7.0")] osiVersionKey = some "") →
      ∃ w', OSITraceWriterMulti.write "4.25.3" pinnedWriter msg371 "gt" = .ok w' ∧
        w'.written = pinnedWriter.written ++ [("gt", msg371)] ∧
        ∃ meta', w'.channels.find? (fun ch => ch.1 == "gt") = some ("gt", meta') ∧
          dictGet meta' osiVersionKey =
            some (formatTriple msg371.version_major msg371.version_minor
                    msg371.version_patch)) :=
  write_osi_version_invariant "4.25.3" pinnedWriter "gt" msg371
    [(osiVersionKey, "3.7.0")] rfl

/-! ## `dataproviders/dataprovider.py` -/

/-- The filesystem facts consulted while constructing a download provider:
whether the provider's base directory exists, its entries when it does, and
whether the single-file provider's target file exists. -/
structure FSState where
  base_dir_exists : Bool
  base_dir_entries : List String
  target_file_exists : Bool
  deriving Repr, DecidableEq

/-- Provider state after `DownloadZIPDataProvider.__init__`. -/
structure DownloadZIPDataProvider where
  uri : String
  force_download : Bool
  loaded : Bool
  deriving Repr, DecidableEq

/-- `self.base_path.iterdir()`: raises `FileNotFoundError` when the base
directory does not exist. -/
def iterdirBase (fs : FSState) : Except String (List String) :=
  if fs.base_dir_exists then .ok fs.base_dir_entries
  else .error "FileNotFoundError"

/-- `DownloadZIPDataProvider.__init__`: the superclass chain sets
`loaded = False if force_download else self.file_path.exists()` (the
conditional expression never touches the filesystem when `force_download`
is true), then this class overwrites it with
`False if self.force_download else any(self.base_path.iterdir())` —
`iterdir` on a missing base directory raises. -/
def DownloadZIPDataProvider.init (fs : FSState) (uri : String)
    (force_download : Bool) : Except String DownloadZIPDataProvider :=
  let _loaded_single := if force_download then false else fs.target_file_exists
  if force_download then
    .ok { uri, force_download, loaded := false }
  else
    match iterdirBase fs with
    | .error e => .error e
    | .ok entries => .ok { uri, force_download, loaded := !entries.isEmpty }

/-- C10: constructing the Download-ZIP provider with `force_download=True`
always succeeds; with `force_download=False` it raises `FileNotFoundError`
whenever the base directory does not exist, because the already-loaded
probe iterates the base directory without first ensuring it exists. -/
theorem zip_provider_missing_base_dir (fs : FSState) (uri : String) :
    (∃ p, DownloadZIPDataProvider.init fs uri true = .ok p) ∧
      (fs.base_dir_exists = false →
        DownloadZIPDataProvider.init fs uri false = .error "FileNotFoundError") := by
  constructor
  · exact ⟨_, rfl⟩
  · intro h
    unfold DownloadZIPDataProvider.init iterdirBase
    rw [h]
    simp

/-- C10 witness: the provider behaviour on a filesystem whose base
directory is absent. -/
theorem zip_provider_missing_base_dir_witness :
    (∃ p, DownloadZIPDataProvider.init ⟨false, [], false⟩ "https://example.com/d.zip" true
        = .ok p) ∧
      ((⟨false, [], false⟩ : FSState).base_dir_exists = false →
        DownloadZIPDataProvider.init ⟨false, [], false⟩ "https://example.com/d.zip" false
          = .error "FileNotFoundError") :=
  zip_provider_missing_base_dir ⟨false, [], false⟩ "https://example.com/d.zip"

/-! ## `utils/utils.py` — trajectory extraction and matching -/

/-- Inner loop of `get_all_moving_object_ids` over one message's objects:
`if not mo.id.value in moving_object_ids: append`. -/
def collectIdsMsg (acc : List ℕ) : List OSIMovingObject → List ℕ
  | [] => acc
  | mo :: rest =>
    collectIdsMsg (if acc.contains mo.id then acc else acc ++ [mo.id]) rest

/-- Outer loop of `get_all_moving_object_ids` over the trace's messages. -/
def collectIds (acc : List ℕ) : List GroundTruthMsg → List ℕ
  | [] => acc
  | msg :: rest => collectIds (collectIdsMsg acc msg.moving_object) rest

/-- `utils.get_all_moving_object_ids`: every moving-object id of the trace,
in first-seen order. -/
def get_all_moving_object_ids (trace : List GroundTruthMsg) : List ℕ :=
  collectIds [] trace

/-- A message timestamp lies in the inclusive window: the source `continue`s
when `start_time is not None and t < start_time`, and likewise above
`end_time`. -/
def inWindow (start_time end_time : Option ℚ) (t : ℚ) : Bool :=
  (match start_time with
   | none => true
   | some s => decide (s ≤ t)) &&
  (match end_time with
   | none => true
   | some e => decide (t ≤ e))

/-- `utils.get_trajectory_by_moving_object_id`: one row per occurrence of
the object in a message whose timestamp lies in the window (the data-frame
`attrs` metadata carries no further computation and is omitted). -/
def get_trajectory_by_moving_object_id (trace : List GroundTruthMsg) (moid : ℕ)
    (start_time end_time : Option ℚ) : List TrajRow :=
  match trace with
  | [] => []
  | msg :: rest =>
    let ts := timestamp_osi_to_float msg.timestamp
    (if inWindow start_time end_time ts then
      (msg.moving_object.filter (fun mo => mo.id == moid)).map (rowOf ts)
    else []) ++
      get_trajectory_by_moving_object_id rest moid start_time end_time

/-- `.iloc[0][["x", "y"]]` of a trajectory data frame: the first row's
planar position; `none` models the `IndexError` on an empty frame. -/
def firstXY : List TrajRow → Option (ℚ × ℚ)
  | [] => none
  | r :: _ => some (r.x, r.y)

/-- The first row's planar position as a total function (meaningful for
non-empty trajectories). -/
def headXY : List TrajRow → ℚ × ℚ
  | [] => (0, 0)
  | r :: _ => (r.x, r.y)

/-- Squared planar distance.  `math.hypot dx dy` is strictly monotone in
`dx² + dy²`, so every comparison the source makes between `hypot` values
holds iff it holds between these squared distances; rationals have no
square root, hence the squared form. -/
def sqDist (a b : ℚ × ℚ) : ℚ :=
  (a.1 - b.1) ^ 2 + (a.2 - b.2) ^ 2

/-- The selection loop of `get_closest_trajectory`: each iteration reads
`ref_trajectory.iloc[0]` and the candidate's `.iloc[0]` (either raises
`IndexError` on an empty frame), keeps the strictly closer candidate, and
the function returns the accumulated nearest trajectory — `None` when there
was no candidate at all. -/
def closestLoop (ref : List TrajRow) :
    List (List TrajRow) → Option (ℚ × List TrajRow) →
      Except String (Option (List TrajRow))
  | [], acc => .ok (acc.map (fun p => p.2))
  | t :: rest, acc =>
    match firstXY ref with
    | none => .error "IndexError: single positional indexer is out-of-bounds"
    | some r0 =>
      match firstXY t with
      | none => .error "IndexError: single positional indexer is out-of-bounds"
      | some t0 =>
        let d := sqDist r0 t0
        match acc with
        | none => closestLoop ref rest (some (d, t))
        | some (m, best) =>
          if d < m then closestLoop ref rest (some (d, t))
          else closestLoop ref rest (some (m, best))

/-- `utils.get_closest_trajectory`: extract every object's trajectory over
the window, then keep the one whose first sample is nearest to the
reference's first sample. -/
def get_closest_trajectory (ref : List TrajRow) (trace : List GroundTruthMsg)
    (start_time end_time : Option ℚ) : Except String (Option (List TrajRow)) :=
  closestLoop ref
    ((get_all_moving_object_ids trace).map
      (fun i => get_trajectory_by_moving_object_id trace i start_time end_time))
    none

theorem collectIds_of_all_empty (trace : List GroundTruthMsg) (acc : List ℕ)
    (h : ∀ msg ∈ trace, msg.moving_object = []) : collectIds acc trace = acc := by
  induction trace generalizing acc with
  | nil => rfl
  | cons msg rest ih =>
    unfold collectIds
    rw [h msg (List.mem_cons_self msg rest)]
    exact ih acc (fun m hm => h m (List.mem_cons.mpr (Or.inr hm)))

/-- C9: on a tool trace with no moving objects at all,
`get_closest_trajectory` returns `None` instead of raising: the loop body
never runs, so the initial `tool_trajectory = None` is returned. -/
theorem no_moving_objects_returns_none (ref : List TrajRow)
    (trace : List GroundTruthMsg) (start_time end_time : Option ℚ)
    (h : ∀ msg ∈ trace, msg.moving_object = []) :
    get_closest_trajectory ref trace start_time end_time = .ok none := by
  unfold get_closest_trajectory get_all_moving_object_ids
  rw [collectIds_of_all_empty trace [] h]
  rfl

/-- C9 witness: a one-message trace with an empty moving-object list. -/
theorem no_moving_objects_returns_none_witness :
    get_closest_trajectory [] [{ timestamp := ⟨0, 0⟩, host_vehicle_id := none
                                 moving_object := [] }] none none = .ok none :=
  no_moving_objects_returns_none [] _ none none (by simp)

theorem closestLoop_argmin (ref : List TrajRow) (r0 : ℚ × ℚ)
    (h0 : firstXY ref = some r0) :
    ∀ (trajs : List (List TrajRow)) (b : List TrajRow),
      (∀ t ∈ trajs, t ≠ []) →
      ∃ c, closestLoop ref trajs (some (sqDist r0 (headXY b), b)) = .ok (some c) ∧
        (c = b ∨ c ∈ trajs) ∧
        sqDist r0 (headXY c) ≤ sqDist r0 (headXY b) ∧
        ∀ t ∈ trajs, sqDist r0 (headXY c) ≤ sqDist r0 (headXY t) := by
  intro trajs
  induction trajs with
  | nil =>
    intro b _
    exact ⟨b, rfl, Or.inl rfl, le_refl _, by simp⟩
  | cons t rest ih =>
    intro b hne
    have hrest : ∀ t' ∈ rest, t' ≠ [] :=
      fun t' h' => hne t' (List.mem_cons.mpr (Or.inr h'))
    have ht : t ≠ [] := hne t (List.mem_cons_self t rest)
    obtain ⟨r, tl, rfl⟩ : ∃ r tl, t = r :: tl := by
      cases t with
      | nil => exact absurd rfl ht
      | cons r tl => exact ⟨r, tl, rfl⟩
    unfold closestLoop
    rw [h0]
    simp only [firstXY]
    by_cases hlt : sqDist r0 (r.x, r.y) < sqDist r0 (headXY b)
    · rw [if_pos hlt]
      obtain ⟨c, hc, hmem, hle, hall⟩ := ih (r :: tl) hrest
      refine ⟨c, hc, ?_, ?_, ?_⟩
      · rcases hmem with h | h
        · exact Or.inr (List.mem_cons.mpr (Or.inl h))
        · exact Or.inr (List.mem_cons.mpr (Or.inr h))
      · exact le_trans hle (le_of_lt hlt)
      · intro t' ht'
        rcases List.mem_cons.mp ht' with h | h
        · rw [h]
          exact hle
        · exact hall t' h
    · rw [if_neg hlt]
      obtain ⟨c, hc, hmem, hle, hall⟩ := ih b hrest
      refine ⟨c, hc, ?_, hle, ?_⟩
      · rcases hmem with h | h
        · exact Or.inl h
        · exact Or.inr (List.mem_cons.mpr (Or.inr h))
      · intro t' ht'
        rcases List.mem_cons.mp ht' with h | h
        · rw [h]
          exact le_trans hle (le_of_not_lt hlt)
        · exact hall t' h

/-- C8 (amended): when the reference trajectory is non-empty, the tool
trace has at least one moving object, and every object of the tool trace
has at least one sample inside the window, `get_closest_trajectory` returns
one of the extracted trajectories, and its first sample's planar position
minimises the (squared, hence Euclidean) distance to the reference's first
sample over all extracted trajectories. -/
theorem closest_trajectory_is_argmin (ref : List TrajRow)
    (trace : List GroundTruthMsg) (start_time end_time : Option ℚ)
    (href : ref ≠ [])
    (hids : get_all_moving_object_ids trace ≠ [])
    (hwin : ∀ i ∈ get_all_moving_object_ids trace,
      get_trajectory_by_moving_object_id trace i start_time end_time ≠ []) :
    ∃ best, get_closest_trajectory ref trace start_time end_time = .ok (some best) ∧
      best ∈ (get_all_moving_object_ids trace).map
        (fun i => get_trajectory_by_moving_object_id trace i start_time end_time) ∧
      ∀ i ∈ get_all_moving_object_ids trace,
        sqDist (headXY ref) (headXY best) ≤
          sqDist (headXY ref)
            (headXY (get_trajectory_by_moving_object_id trace i start_time end_time)) := by
  obtain ⟨r, rrest, rfl⟩ : ∃ r rrest, ref = r :: rrest := by
    cases ref with
    | nil => exact absurd rfl href
    | cons r rrest => exact ⟨r, rrest, rfl⟩
  have h0 : firstXY (r :: rrest) = some (r.x, r.y) := rfl
  have hmapne :
      (get_all_moving_object_ids trace).map
        (fun i => get_trajectory_by_moving_object_id trace i start_time end_time) ≠ [] := by
    intro hcon
    exact hids (List.map_eq_nil_iff.mp hcon)
  have hallne : ∀ t ∈ (get_all_moving_object_ids trace).map
      (fun i => get_trajectory_by_moving_object_id trace i start_time end_time),
      t ≠ [] := by
    intro t htm
    obtain ⟨i, hi, rfl⟩ := List.mem_map.mp htm
    exact hwin i hi
  cases hmap : (get_all_moving_object_ids trace).map
      (fun i => get_trajectory_by_moving_object_id trace i start_time end_time) with
  | nil => exact absurd hmap hmapne
  | cons t rest =>
    have htne : t ≠ [] := hallne t (by rw [hmap]; exact List.mem_cons_self t rest)
    have hrestne : ∀ t' ∈ rest, t' ≠ [] := by
      intro t' h'
      exact hallne t' (by rw [hmap]; exact List.mem_cons.mpr (Or.inr h'))
    obtain ⟨r2, tl2, rfl⟩ : ∃ r2 tl2, t = r2 :: tl2 := by
      cases t with
      | nil => exact absurd rfl htne
      | cons r2 tl2 => exact ⟨r2, tl2, rfl⟩
    unfold get_closest_trajectory
    rw [hmap]
    unfold closestLoop
    rw [h0]
    simp only [firstXY]
    obtain ⟨c, hc, hmem, hle, hall⟩ :=
      closestLoop_argmin (r :: rrest) (r.x, r.y) h0 rest (r2 :: tl2) hrestne
    refine ⟨c, hc, ?_, ?_⟩
    · rcases hmem with h | h
      · exact List.mem_cons.mpr (Or.inl h)
      · exact List.mem_cons.mpr (Or.inr h)
    · intro i hi
      have hfmem : get_trajectory_by_moving_object_id trace i start_time end_time ∈
          (get_all_moving_object_ids trace).map
            (fun i => get_trajectory_by_moving_object_id trace i start_time end_time) :=
        List.mem_map_of_mem _ hi
      rw [hmap] at hfmem
      rcases List.mem_cons.mp hfmem with h | h
      · rw [h]
        exact hle
      · exact hall _ h

/-- An object (id 1) present only in the first message of `leavingTrace`. -/
def oneShotObject : OSIMovingObject :=
  { id := 1
    base := { position := ⟨0, 0, 0⟩, orientation := ⟨0, 0, 0⟩, dimension := ⟨4, 2, 2⟩ }
    type := 2
    vehicle_classification_type := 4
    vehicle_attributes_bbcenter_to_rear := none }

/-- An object (id 2) present in both messages of `leavingTrace`. -/
def persistentObject : OSIMovingObject :=
  { id := 2
    base := { position := ⟨3, 4, 0⟩, orientation := ⟨0, 0, 0⟩, dimension := ⟨4, 2, 2⟩ }
    type := 2
    vehicle_classification_type := 4
    vehicle_attributes_bbcenter_to_rear := none }

/-- A two-message trace: at `t = 0` both objects appear, at `t = 2` only
object 2 does. -/
def leavingTrace : List GroundTruthMsg :=
  [{ timestamp := ⟨0, 0⟩, host_vehicle_id := none
     moving_object := [oneShotObject, persistentObject] },
   { timestamp := ⟨2, 0⟩, host_vehicle_id := none
     moving_object := [persistentObject] }]

/-- A one-row reference trajectory. -/
def refRow : TrajRow := ⟨0, 0, 0, 0, 0, 0, 0⟩

/-- C8 counterexample: with window `start_time = 1`, object 1 of
`leavingTrace` has no sample in the window, its extracted trajectory is
empty, and `get_closest_trajectory` raises `IndexError` on
`tool_trajectory.iloc[0]` instead of returning object 2's trajectory (the
nearest — indeed only — candidate with a first sample). -/
theorem get_closest_trajectory_raises_when_object_leaves_window :
    get_closest_trajectory [refRow] leavingTrace (some 1) none =
      .error "IndexError: single positional indexer is out-of-bounds" := by
  have h1 : inWindow (some 1) none (timestamp_osi_to_float ⟨0, 0⟩) = false := by
    simp only [inWindow, timestamp_osi_to_float, Bool.and_true,
      decide_eq_false_iff_not, not_le]
    norm_num
  have hf1 : get_trajectory_by_moving_object_id leavingTrace 1 (some 1) none = [] := by
    simp [get_trajectory_by_moving_object_id, leavingTrace, h1,
      oneShotObject, persistentObject]
  have hids : get_all_moving_object_ids leavingTrace = [1, 2] := by decide
  unfold get_closest_trajectory
  rw [hids, List.map_cons, List.map_cons, List.map_nil, hf1]
  rfl

/-- A one-message trace containing only `persistentObject` (id 2). -/
def soloTrace : List GroundTruthMsg :=
  [{ timestamp := ⟨0, 0⟩, host_vehicle_id := none
     moving_object := [persistentObject] }]

/-- C8 witness: the amended argmin theorem on a one-object trace with no
window. -/
theorem closest_trajectory_is_argmin_witness :
    ∃ best, get_closest_trajectory [refRow] soloTrace none none = .ok (some best) ∧
      best ∈ (get_all_moving_object_ids soloTrace).map
        (fun i => get_trajectory_by_moving_object_id soloTrace i none none) ∧
      ∀ i ∈ get_all_moving_object_ids soloTrace,
        sqDist (headXY [refRow]) (headXY best) ≤
          sqDist (headXY [refRow])
            (headXY (get_trajectory_by_moving_object_id soloTrace i none none)) :=
  closest_trajectory_is_argmin [refRow] soloTrace none none (by decide) (by decide)
    (by decide)

end OscValidation
